import Mathlib

/-!
Shallow embedding of the after-hours scheduling core of GradeReporter
(src/features/after_hours/repository.py, class AfterHoursSystem).

Time model:
- An instant is an integer count of seconds since the Unix epoch (UTC).
- A pytz timezone is abstracted by its fixed UTC offset in seconds
  (field tz_offset of Teacher): converting a UTC instant to teacher-local
  wall-clock time adds the offset (datetime.astimezone), and tz.localize
  of a wall-clock reading subtracts it. DST transitions are outside the
  model: a zone is a fixed offset.
- A wall-clock reading w encodes the local calendar datetime: its calendar
  day number is w divided by 86400 (floored), its time of day is w modulo
  86400. 1970-01-01 was a Thursday, so the weekday in the convention of
  Python date.weekday() (Monday = 0) is (day number + 3) modulo 7.
- datetime.replace(second=0, microsecond=0) on a local datetime floors the
  wall-clock reading to a multiple of 60 (sub-second precision is not
  modelled; it is truncated away at every comparison the code performs).
- The TEXT columns start_hm and end_hm always hold strings of the shape
  HH:MM; a column value is represented by its image under the source
  helper _parse_hm, i.e. by the pair of parsed integers.
- The TEXT column scheduled_slot_utc is represented by its parse result
  under datetime.fromisoformat: either the UTC instant it denotes
  (StoredInstant.valid) or StoredInstant.malformed when fromisoformat
  raises.
-/

/-- Floor a wall-clock reading to the minute: replace(second=0, microsecond=0). -/
def truncMinute (t : Int) : Int := t - t % 60

/-- Local midnight of the calendar day containing wall-clock reading t
(the date part used when building datetime(year, month, day, hour, minute)). -/
def dayStartWall (t : Int) : Int := t - t % 86400

/-- Python date.weekday() of the day containing wall-clock reading t (Monday = 0). -/
def wallWeekday (t : Int) : Int := (t / 86400 + 3) % 7

/-- Row of the teachers table. The IANA timezone TEXT column is abstracted
by that zone's fixed UTC offset in seconds. -/
structure Teacher where
  teacher_id : String
  name : String
  email : Option String
  tz_offset : Int
deriving Repr, DecidableEq

/-- Row of the availability table; start_hm and end_hm are the parsed
(hour, minute) pairs of the stored HH:MM strings. The weekday column is an
arbitrary INTEGER, as in the schema. -/
structure AvailRow where
  teacher_id : String
  weekday : Int
  start_hh : Nat
  start_mm : Nat
  end_hh : Nat
  end_mm : Nat
deriving Repr, DecidableEq

/-- Parse result of a stored scheduled_slot_utc TEXT value:
valid u means datetime.fromisoformat succeeds and, after astimezone to UTC,
denotes the instant u; malformed means fromisoformat raises. -/
inductive StoredInstant where
  | valid (utc : Int)
  | malformed
deriving Repr, DecidableEq

/-- Row of the tickets table. -/
structure TicketRow where
  ticket_id : String
  teacher_id : String
  submitter_name : String
  submitter_email : String
  submitter_id : String
  question : String
  submitted_at_utc : Int
  status : String
  scheduled_slot_utc : Option StoredInstant
deriving Repr, DecidableEq

/-- The sqlite database after_hours.db. Each table is a list of rows in
rowid (insertion) order, which is the order a SELECT without ORDER BY
returns them in. -/
structure DB where
  teachers : List Teacher
  availability : List AvailRow
  tickets : List TicketRow
deriving Repr, DecidableEq

/-- AfterHoursSystem.get_teacher: SELECT ... FROM teachers WHERE teacher_id=?,
fetchone. teacher_id is the primary key, so the first match is the row. -/
def get_teacher (db : DB) (tid : String) : Option Teacher :=
  db.teachers.find? (fun t => t.teacher_id == tid)

/-- AfterHoursSystem._get_availability_df: SELECT weekday, start_hm, end_hm
FROM availability WHERE teacher_id=? (no ORDER BY: rowid order). -/
def _get_availability_df (db : DB) (tid : String) : List AvailRow :=
  db.availability.filter (fun a => a.teacher_id == tid)

/-- The contribution of one ticket row to the scheduled_local_starts set of
find_next_available_slot (repository.py lines 185-197): the WHERE clause
keeps rows of the teacher with non-NULL scheduled_slot_utc, the try block
converts the parsed UTC instant into the teacher's zone and floors it to
the minute, and a row whose text does not parse raises inside the try
block and is skipped by the except/continue. -/
def ticket_local_start (tid : String) (off : Int) (t : TicketRow) : Option Int :=
  if t.teacher_id == tid then
    match t.scheduled_slot_utc with
    | some (StoredInstant.valid u) => some (truncMinute (u + off))
    | some StoredInstant.malformed => none
    | none => none
  else none

/-- The set scheduled_local_starts built in find_next_available_slot
(repository.py lines 185-197). -/
def scheduled_local_starts (db : DB) (tid : String) (off : Int) : List Int :=
  db.tickets.filterMap (ticket_local_start tid off)

/-- The candidate local start built for a window on the day containing
wall-clock reading dayWall: tz.localize(datetime(year, month, day of the
local candidate date, hour=sh, minute=sm)), read as a wall-clock value. -/
def window_start_wall (dayWall : Int) (win : AvailRow) : Int :=
  dayStartWall dayWall + (win.start_hh : Int) * 3600 + (win.start_mm : Int) * 60

/-- Inner loop of find_next_available_slot (repository.py lines 207-218):
iterate the windows of the day in dataframe (row) order; skip a candidate
that is strictly before now_local or whose minute-floored local start is in
the scheduled set; return the first survivor. -/
def find_in_windows (now_wall : Int) (sched : List Int) (dayWall : Int) :
    List AvailRow → Option Int
  | [] => none
  | win :: rest =>
      let w := window_start_wall dayWall win
      if w < now_wall then find_in_windows now_wall sched dayWall rest
      else if truncMinute w ∈ sched then find_in_windows now_wall sched dayWall rest
      else some w

/-- Outer loop of find_next_available_slot (repository.py lines 200-219):
for each day offset, form the local candidate day, filter the availability
rows to that local weekday, and run the inner window loop. -/
def find_over_days (off now_wall : Int) (avail : List AvailRow) (sched : List Int)
    (start_utc : Int) : List Nat → Option Int
  | [] => none
  | d :: rest =>
      let dayWall := start_utc + 86400 * (d : Int) + off
      let wd := wallWeekday dayWall
      let day_windows := avail.filter (fun a => a.weekday == wd)
      match find_in_windows now_wall sched dayWall day_windows with
      | some w => some w
      | none => find_over_days off now_wall avail sched start_utc rest

/-- AfterHoursSystem.find_next_available_slot (repository.py lines 166-219).
Raises ValueError (Except.error) when the teacher does not exist; returns
None (Except.ok none) when the teacher has no availability rows, before the
ticket query, or when the day loop over offsets 0..search_days is
exhausted. A found slot is the returned aware local datetime, represented
by its instant (wall-clock reading minus the zone offset). The from_time_utc
argument is already an instant; the None default and the naive-to-UTC
normalization of the source are identities in the model. -/
def find_next_available_slot (db : DB) (teacher_id : String) (from_time_utc : Int)
    (search_days : Nat := 14) : Except String (Option Int) :=
  match get_teacher db teacher_id with
  | none => Except.error "Teacher not found"
  | some teacher =>
      let off := teacher.tz_offset
      let avail_df := _get_availability_df db teacher_id
      if avail_df = [] then Except.ok none
      else
        let sched := scheduled_local_starts db teacher_id off
        let now_wall := from_time_utc + off
        match find_over_days off now_wall avail_df sched from_time_utc
            (List.range (search_days + 1)) with
        | some w => Except.ok (some (w - off))
        | none => Except.ok none

/-- The dict returned by submit_ticket. scheduled_local is the proposed
aware local slot (None when queued), represented by its instant. -/
structure SubmitResult where
  ticket_id : String
  status : String
  teacher : String
  scheduled_local : Option Int
deriving Repr, DecidableEq

/-- First half of submit_ticket (repository.py lines 127-146): normalize
the submission time, look the teacher up (raising ValueError when absent),
run the slot search, and build the ticket row and the returned dict.
No question-text validation happens anywhere in submit_ticket. -/
def submit_phase1 (db : DB)
    (teacher_id submitter_name submitter_email submitter_id question : String)
    (submit_time : Int) (ticket_id : String) :
    Except String (TicketRow × SubmitResult) :=
  match get_teacher db teacher_id with
  | none => Except.error "Teacher not found"
  | some teacher =>
      let proposed_slot : Option Int :=
        match find_next_available_slot db teacher_id submit_time 14 with
        | Except.ok o => o
        | Except.error _ => none
      let status := if proposed_slot.isSome then "SCHEDULED" else "QUEUED"
      Except.ok
        ({ ticket_id := ticket_id, teacher_id := teacher_id,
           submitter_name := submitter_name, submitter_email := submitter_email,
           submitter_id := submitter_id, question := question,
           submitted_at_utc := submit_time, status := status,
           scheduled_slot_utc := proposed_slot.map StoredInstant.valid },
         { ticket_id := ticket_id, status := status, teacher := teacher.name,
           scheduled_local := proposed_slot })

/-- Second half of submit_ticket (repository.py lines 148-157): the INSERT
INTO tickets, appending the new row. -/
def submit_phase2 (db : DB) (t : TicketRow) : DB :=
  { db with tickets := db.tickets ++ [t] }

/-- AfterHoursSystem.submit_ticket (repository.py lines 124-164): phase 1
(slot search and row construction) followed immediately by phase 2 (the
insert), on the same database state, with no lock in between. The fresh
uuid4 ticket id is supplied by the caller of the model. -/
def submit_ticket (db : DB)
    (teacher_id submitter_name submitter_email submitter_id question : String)
    (submit_time : Int) (ticket_id : String) :
    Except String (DB × SubmitResult) :=
  match submit_phase1 db teacher_id submitter_name submitter_email submitter_id
      question submit_time ticket_id with
  | Except.error e => Except.error e
  | Except.ok (t, r) => Except.ok (submit_phase2 db t, r)

/-- find_next_available_slot viewed as a state transformer: the source
function only runs SELECT queries on connections it closes again, so the
database component of the result is the input database. -/
def find_next_available_slot_run (db : DB) (teacher_id : String)
    (from_time_utc : Int) (search_days : Nat := 14) :
    DB × Except String (Option Int) :=
  (db, find_next_available_slot db teacher_id from_time_utc search_days)

/-! ## Candidate enumeration

The nested day/window loops of find_next_available_slot, flattened into the
list of candidate local starts they visit, in day-then-row order, together
with the rejection test the loops apply to each candidate. -/

/-- The candidate local starts generated on day offset d of the search:
the windows whose stored weekday equals the local candidate date's weekday,
in row order, each placed at its start time on that date. -/
def day_candidates (off start_utc : Int) (avail : List AvailRow) (d : Nat) : List Int :=
  (avail.filter
      (fun a => a.weekday == wallWeekday (start_utc + 86400 * (d : Int) + off))).map
    (window_start_wall (start_utc + 86400 * (d : Int) + off))

/-- All candidate local starts of the search, day offsets 0..search_days in
order, windows in row order within a day. -/
def all_candidates (off start_utc : Int) (avail : List AvailRow) (search_days : Nat) :
    List Int :=
  (List.range (search_days + 1)).flatMap (day_candidates off start_utc avail)

/-- The rejection test applied to a candidate local start w: strictly
before the teacher-local instant derived from from_time_utc, or its
minute-floored value collides with the scheduled set. -/
def slot_rejected (sched : List Int) (now_wall w : Int) : Bool :=
  decide (w < now_wall) || decide (truncMinute w ∈ sched)

/-! ## Loop flattening -/

theorem find_in_windows_eq (now_wall : Int) (sched : List Int) (dayWall : Int)
    (ws : List AvailRow) :
    find_in_windows now_wall sched dayWall ws =
      (ws.map (window_start_wall dayWall)).find?
        (fun w => ! slot_rejected sched now_wall w) := by
  induction ws with
  | nil => rfl
  | cons win rest ih =>
      by_cases h1 : window_start_wall dayWall win < now_wall
      · simp [find_in_windows, h1, ih, slot_rejected]
      · by_cases h2 : truncMinute (window_start_wall dayWall win) ∈ sched
        · simp [find_in_windows, h1, h2, ih, slot_rejected]
        · simp [find_in_windows, h1, h2, slot_rejected]

theorem find_over_days_eq (off now_wall : Int) (avail : List AvailRow)
    (sched : List Int) (start_utc : Int) (ds : List Nat) :
    find_over_days off now_wall avail sched start_utc ds =
      (ds.flatMap (day_candidates off start_utc avail)).find?
        (fun w => ! slot_rejected sched now_wall w) := by
  induction ds with
  | nil => rfl
  | cons d rest ih =>
      simp only [find_over_days, find_in_windows_eq, ih, List.flatMap_cons,
        List.find?_append, day_candidates]
      cases h : ((avail.filter
            (fun a => a.weekday == wallWeekday (start_utc + 86400 * (d : Int) + off))).map
          (window_start_wall (start_utc + 86400 * (d : Int) + off))).find?
          (fun w => ! slot_rejected sched now_wall w) with
      | none => simp [h]
      | some w => simp [h]

/-- With the teacher present and at least one availability row, the search
is: first candidate in day-then-row order that survives the rejection test,
converted back from local wall clock to an instant. -/
theorem find_next_char (db : DB) (tid : String) (fromUtc : Int) (d : Nat)
    (T : Teacher)
    (hT : get_teacher db tid = some T)
    (hav : _get_availability_df db tid ≠ []) :
    find_next_available_slot db tid fromUtc d =
      Except.ok
        (((all_candidates T.tz_offset fromUtc (_get_availability_df db tid) d).find?
            (fun w => ! slot_rejected (scheduled_local_starts db tid T.tz_offset)
              (fromUtc + T.tz_offset) w)).map
          (fun w => w - T.tz_offset)) := by
  unfold find_next_available_slot
  rw [hT]
  simp only [if_neg hav, find_over_days_eq, all_candidates]
  cases h : ((List.range (d + 1)).flatMap
      (day_candidates T.tz_offset fromUtc (_get_availability_df db tid))).find?
      (fun w => ! slot_rejected (scheduled_local_starts db tid T.tz_offset)
        (fromUtc + T.tz_offset) w) with
  | none => simp [h]
  | some w => simp [h]

/-- A teacher who exists but has no availability rows: the search returns
None before the tickets table is even read. -/
theorem find_next_empty_avail (db : DB) (tid : String) (fromUtc : Int) (d : Nat)
    (T : Teacher)
    (hT : get_teacher db tid = some T)
    (hav : _get_availability_df db tid = []) :
    find_next_available_slot db tid fromUtc d = Except.ok none := by
  unfold find_next_available_slot
  rw [hT]
  simp [hav]

/-- With the teacher present, the search never raises. -/
theorem find_next_ok_of_teacher {db : DB} {tid : String} {fromUtc : Int} {d : Nat}
    {T : Teacher} (hT : get_teacher db tid = some T) :
    ∃ o : Option Int, find_next_available_slot db tid fromUtc d = Except.ok o := by
  by_cases hav : _get_availability_df db tid = []
  · exact ⟨none, find_next_empty_avail db tid fromUtc d T hT hav⟩
  · exact ⟨_, find_next_char db tid fromUtc d T hT hav⟩

/-! ## Arithmetic facts about candidates -/

theorem window_start_wall_emod60 (t : Int) (a : AvailRow) :
    window_start_wall t a % 60 = 0 := by
  simp only [window_start_wall, dayStartWall]
  omega

theorem truncMinute_eq_self {w : Int} (h : w % 60 = 0) : truncMinute w = w := by
  simp [truncMinute, h]

theorem wallWeekday_window_start (t : Int) (a : AvailRow)
    (h1 : a.start_hh < 24) (h2 : a.start_mm < 60) :
    wallWeekday (window_start_wall t a) = wallWeekday t := by
  simp only [window_start_wall, dayStartWall, wallWeekday]
  omega

theorem emod_day_window_start (t : Int) (a : AvailRow)
    (h1 : a.start_hh < 24) (h2 : a.start_mm < 60) :
    window_start_wall t a % 86400 =
      (a.start_hh : Int) * 3600 + (a.start_mm : Int) * 60 := by
  simp only [window_start_wall, dayStartWall]
  omega

theorem mem_all_candidates {off start_utc w : Int} {avail : List AvailRow} {d : Nat}
    (hw : w ∈ all_candidates off start_utc avail d) :
    ∃ k : Nat, k < d + 1 ∧ ∃ a, a ∈ avail ∧
      a.weekday = wallWeekday (start_utc + 86400 * (k : Int) + off) ∧
      w = window_start_wall (start_utc + 86400 * (k : Int) + off) a := by
  simp only [all_candidates, List.mem_flatMap, List.mem_range, day_candidates,
    List.mem_map, List.mem_filter, beq_iff_eq] at hw
  obtain ⟨k, hk, a, ⟨ha, hwd⟩, hww⟩ := hw
  exact ⟨k, hk, a, ha, hwd, hww.symm⟩

theorem all_candidates_emod60 {off start_utc w : Int} {avail : List AvailRow} {d : Nat}
    (hw : w ∈ all_candidates off start_utc avail d) : w % 60 = 0 := by
  obtain ⟨k, _, a, _, _, rfl⟩ := mem_all_candidates hw
  exact window_start_wall_emod60 _ _

/-! ## What a found slot satisfies -/

theorem find_next_some_elim {db : DB} {tid : String} {fromUtc : Int} {d : Nat}
    {T : Teacher} {s : Int}
    (hT : get_teacher db tid = some T)
    (hs : find_next_available_slot db tid fromUtc d = Except.ok (some s)) :
    s + T.tz_offset ∈ all_candidates T.tz_offset fromUtc (_get_availability_df db tid) d ∧
      fromUtc ≤ s ∧
      truncMinute (s + T.tz_offset) ∉ scheduled_local_starts db tid T.tz_offset := by
  have hav : _get_availability_df db tid ≠ [] := by
    intro h
    rw [find_next_empty_avail db tid fromUtc d T hT h] at hs
    simp at hs
  rw [find_next_char db tid fromUtc d T hT hav] at hs
  have h2 := Except.ok.inj hs
  obtain ⟨w, hw, hws⟩ := Option.map_eq_some'.mp h2
  have hmem := List.mem_of_find?_eq_some hw
  have hp := List.find?_some hw
  have hw' : w = s + T.tz_offset := by omega
  rw [hw'] at hmem hp
  simp only [Bool.not_eq_true', slot_rejected, Bool.or_eq_false_iff,
    decide_eq_false_iff_not] at hp
  exact ⟨hmem, by omega, hp.2⟩

/-! ## The scheduled set -/

theorem mem_scheduled_local_starts {db : DB} {tid : String} {off x : Int} :
    x ∈ scheduled_local_starts db tid off ↔
      ∃ t ∈ db.tickets, t.teacher_id = tid ∧
        ∃ u : Int, t.scheduled_slot_utc = some (StoredInstant.valid u) ∧
          truncMinute (u + off) = x := by
  simp only [scheduled_local_starts, List.mem_filterMap]
  constructor
  · rintro ⟨t, ht, hf⟩
    unfold ticket_local_start at hf
    by_cases h : t.teacher_id == tid
    · rw [if_pos h] at hf
      cases hsl : t.scheduled_slot_utc with
      | none => rw [hsl] at hf; simp at hf
      | some si =>
          cases si with
          | malformed => rw [hsl] at hf; simp at hf
          | valid u =>
              rw [hsl] at hf
              exact ⟨t, ht, beq_iff_eq.mp h, u, hsl, Option.some.inj hf⟩
    · rw [if_neg h] at hf; simp at hf
  · rintro ⟨t, ht, htid, u, hsl, hx⟩
    refine ⟨t, ht, ?_⟩
    unfold ticket_local_start
    rw [if_pos (beq_iff_eq.mpr htid), hsl]
    exact congrArg some hx

theorem mem_scheduled_insert_self (db : DB) (tid : String) (off u : Int)
    (t : TicketRow)
    (h1 : t.teacher_id = tid)
    (h2 : t.scheduled_slot_utc = some (StoredInstant.valid u)) :
    truncMinute (u + off) ∈ scheduled_local_starts (submit_phase2 db t) tid off := by
  apply mem_scheduled_local_starts.mpr
  exact ⟨t, by simp [submit_phase2], h1, u, h2, rfl⟩

/-! ## submit_ticket structure -/

theorem submit_ticket_ok_elim {db : DB} {tid n e i q : String} {t0 : Int} {tk : String}
    {db2 : DB} {r : SubmitResult}
    (h : submit_ticket db tid n e i q t0 tk = Except.ok (db2, r)) :
    ∃ T : Teacher, get_teacher db tid = some T ∧
      find_next_available_slot db tid t0 14 = Except.ok r.scheduled_local ∧
      r.ticket_id = tk ∧ r.teacher = T.name ∧
      r.status = (if r.scheduled_local.isSome then "SCHEDULED" else "QUEUED") ∧
      db2 = submit_phase2 db
        { ticket_id := tk, teacher_id := tid, submitter_name := n,
          submitter_email := e, submitter_id := i, question := q,
          submitted_at_utc := t0,
          status := if r.scheduled_local.isSome then "SCHEDULED" else "QUEUED",
          scheduled_slot_utc := r.scheduled_local.map StoredInstant.valid } := by
  unfold submit_ticket submit_phase1 at h
  cases hg : get_teacher db tid with
  | none => rw [hg] at h; simp at h
  | some T =>
      rw [hg] at h
      obtain ⟨o, hf⟩ := @find_next_ok_of_teacher db tid t0 14 T hg
      rw [hf] at h
      simp only [Except.ok.injEq, Prod.mk.injEq] at h
      obtain ⟨hdb, hr⟩ := h
      subst hdb
      subst hr
      exact ⟨T, rfl, by simp [hf], rfl, rfl, rfl, rfl⟩

/-- After a successful submit_ticket that scheduled slot S, no later search
for the same teacher on the updated database can return S: the inserted
ticket's minute-floored local start is in the new scheduled set, and every
slot the search returns avoids that set. -/
theorem submit_then_find_ne {db : DB} {tid n e i q : String} {t0 : Int} {tk : String}
    {db2 : DB} {r : SubmitResult} {S fromU : Int} {d : Nat} {s2 : Int}
    (hsub : submit_ticket db tid n e i q t0 tk = Except.ok (db2, r))
    (hS : r.scheduled_local = some S)
    (hfind : find_next_available_slot db2 tid fromU d = Except.ok (some s2)) :
    s2 ≠ S := by
  obtain ⟨T, hT, hfind0, _, _, _, hdb2⟩ := submit_ticket_ok_elim hsub
  have hT2 : get_teacher db2 tid = some T := by rw [hdb2]; exact hT
  obtain ⟨_, _, hns2⟩ := find_next_some_elim hT2 hfind
  have hmemS : truncMinute (S + T.tz_offset) ∈
      scheduled_local_starts db2 tid T.tz_offset := by
    rw [hdb2]
    exact mem_scheduled_insert_self db tid T.tz_offset S _ rfl (by rw [hS]; rfl)
  intro heq
  rw [heq] at hns2
  exact hns2 hmemS

/-! ## First accepted candidate on day zero -/

theorem all_candidates_zero (off start_utc : Int) (avail : List AvailRow) (d : Nat) :
    all_candidates off start_utc avail d =
      day_candidates off start_utc avail 0 ++
        (List.map Nat.succ (List.range d)).flatMap (day_candidates off start_utc avail) := by
  rw [all_candidates, List.range_succ_eq_map, List.flatMap_cons]

theorem day_candidates_zero (off start_utc : Int) (avail : List AvailRow) :
    day_candidates off start_utc avail 0 =
      (avail.filter (fun x => x.weekday == wallWeekday (start_utc + off))).map
        (window_start_wall (start_utc + off)) := by
  simp [day_candidates]

/-- If the first availability row matches day zero's weekday and its
candidate start is at or after the local now and unscheduled, the search
returns that candidate, whatever the remaining rows hold. -/
theorem find_next_day0_head (db : DB) (tid : String) (fromUtc : Int) (d : Nat)
    (T : Teacher) (a : AvailRow) (rest : List AvailRow)
    (hT : get_teacher db tid = some T)
    (hav : _get_availability_df db tid = a :: rest)
    (hwd : a.weekday = wallWeekday (fromUtc + T.tz_offset))
    (hge : fromUtc + T.tz_offset ≤ window_start_wall (fromUtc + T.tz_offset) a)
    (hns : truncMinute (window_start_wall (fromUtc + T.tz_offset) a) ∉
      scheduled_local_starts db tid T.tz_offset) :
    find_next_available_slot db tid fromUtc d =
      Except.ok (some (window_start_wall (fromUtc + T.tz_offset) a - T.tz_offset)) := by
  have hav2 : _get_availability_df db tid ≠ [] := by rw [hav]; simp
  rw [find_next_char db tid fromUtc d T hT hav2, all_candidates_zero,
    day_candidates_zero, hav, List.filter_cons_of_pos (by simpa using hwd),
    List.map_cons, List.cons_append, List.find?_cons_of_pos]
  · rfl
  · simp only [slot_rejected, Bool.not_eq_true', Bool.or_eq_false_iff,
      decide_eq_false_iff_not]
    exact ⟨by omega, hns⟩

/-! ## Ticket-table congruence -/

theorem find_next_congr (db1 db2 : DB) (tid : String) (fromUtc : Int) (d : Nat)
    (ht : db1.teachers = db2.teachers) (ha : db1.availability = db2.availability)
    (hs : ∀ off : Int, db1.tickets.filterMap (ticket_local_start tid off) =
        db2.tickets.filterMap (ticket_local_start tid off)) :
    find_next_available_slot db1 tid fromUtc d =
      find_next_available_slot db2 tid fromUtc d := by
  simp only [find_next_available_slot, get_teacher, _get_availability_df,
    scheduled_local_starts, ht, ha, hs]

theorem filterMap_ticket_filter_malformed (ts : List TicketRow) (tid : String)
    (off : Int) :
    (ts.filter
        (fun t => decide (t.scheduled_slot_utc ≠ some StoredInstant.malformed))).filterMap
      (ticket_local_start tid off) = ts.filterMap (ticket_local_start tid off) := by
  simp only [ne_eq, decide_not]
  induction ts with
  | nil => rfl
  | cons t rest ih =>
      by_cases h : t.scheduled_slot_utc = some StoredInstant.malformed
      · have h0 : ticket_local_start tid off t = none := by
          unfold ticket_local_start
          rw [h]
          split <;> rfl
        simp [List.filter_cons, h, List.filterMap_cons, h0, ih]
      · simp [List.filter_cons, h, List.filterMap_cons, ih]

/-! ## Concrete databases for witnesses and counterexamples -/

def teacherW1 : Teacher :=
  { teacher_id := "w1", name := "Ms One", email := none, tz_offset := 0 }

def availW1 : AvailRow :=
  { teacher_id := "w1", weekday := 3, start_hh := 9, start_mm := 0,
    end_hh := 17, end_mm := 0 }

def dbW1 : DB := { teachers := [teacherW1], availability := [availW1], tickets := [] }

def teacherW2 : Teacher :=
  { teacher_id := "w2", name := "Ms Two", email := none, tz_offset := -18000 }

def availW2 : AvailRow :=
  { teacher_id := "w2", weekday := 0, start_hh := 9, start_mm := 0,
    end_hh := 17, end_mm := 0 }

def tickW2a : TicketRow :=
  { ticket_id := "ta", teacher_id := "w2", submitter_name := "s",
    submitter_email := "s@x", submitter_id := "sid", question := "how",
    submitted_at_utc := 0, status := "SCHEDULED",
    scheduled_slot_utc := some (StoredInstant.valid 396000) }

def tickW2b : TicketRow :=
  { ticket_id := "tb", teacher_id := "w2", submitter_name := "s2",
    submitter_email := "s2@x", submitter_id := "sid2", question := "why",
    submitted_at_utc := 0, status := "SCHEDULED",
    scheduled_slot_utc := some StoredInstant.malformed }

def dbW2 : DB :=
  { teachers := [teacherW2], availability := [availW2],
    tickets := [tickW2a, tickW2b] }

def teacherW3 : Teacher :=
  { teacher_id := "w3", name := "Ms Three", email := none, tz_offset := 0 }

def availW3 : AvailRow :=
  { teacher_id := "w3", weekday := 3, start_hh := 9, start_mm := 0,
    end_hh := 17, end_mm := 0 }

def dbW3 : DB := { teachers := [teacherW3], availability := [availW3], tickets := [] }

def tickW3 : TicketRow :=
  { ticket_id := "tk3", teacher_id := "w3", submitter_name := "n",
    submitter_email := "e", submitter_id := "i", question := "q",
    submitted_at_utc := 0, status := "SCHEDULED",
    scheduled_slot_utc := some (StoredInstant.valid 32400) }

def resW3 : SubmitResult :=
  { ticket_id := "tk3", status := "SCHEDULED", teacher := "Ms Three",
    scheduled_local := some 32400 }

def teacherMon : Teacher :=
  { teacher_id := "tm", name := "Ms Monday", email := none, tz_offset := -18000 }

def availMon : AvailRow :=
  { teacher_id := "tm", weekday := 0, start_hh := 9, start_mm := 0,
    end_hh := 17, end_mm := 0 }

def dbMon : DB := { teachers := [teacherMon], availability := [availMon], tickets := [] }

def teacherW5 : Teacher :=
  { teacher_id := "w5", name := "Ms Five", email := none, tz_offset := 3600 }

def dbW5 : DB := { teachers := [teacherW5], availability := [], tickets := [] }

def tickW5 : TicketRow :=
  { ticket_id := "tk5", teacher_id := "w5", submitter_name := "n",
    submitter_email := "e", submitter_id := "i", question := "q",
    submitted_at_utc := 0, status := "SCHEDULED",
    scheduled_slot_utc := some (StoredInstant.valid 7200) }

def teacherRows : Teacher :=
  { teacher_id := "t6", name := "Ms Rows", email := none, tz_offset := 0 }

def availRows1 : AvailRow :=
  { teacher_id := "t6", weekday := 3, start_hh := 10, start_mm := 0,
    end_hh := 13, end_mm := 0 }

def availRows2 : AvailRow :=
  { teacher_id := "t6", weekday := 3, start_hh := 9, start_mm := 0,
    end_hh := 12, end_mm := 0 }

/-- Overlapping Thursday windows stored in the order 10:00-13:00 first,
09:00-12:00 second. -/
def dbRows : DB :=
  { teachers := [teacherRows], availability := [availRows1, availRows2], tickets := [] }

def teacherQ : Teacher :=
  { teacher_id := "t7", name := "Mr Q", email := none, tz_offset := 0 }

def dbQ : DB := { teachers := [teacherQ], availability := [], tickets := [] }

def tickQ : TicketRow :=
  { ticket_id := "tk7", teacher_id := "t7", submitter_name := "nm",
    submitter_email := "em", submitter_id := "sid", question := "",
    submitted_at_utc := 0, status := "QUEUED", scheduled_slot_utc := none }

def teacherRace : Teacher :=
  { teacher_id := "t9", name := "Ms Race", email := none, tz_offset := 0 }

def availRace : AvailRow :=
  { teacher_id := "t9", weekday := 3, start_hh := 9, start_mm := 0,
    end_hh := 17, end_mm := 0 }

def dbRace : DB := { teachers := [teacherRace], availability := [availRace], tickets := [] }

def rowRaceA : TicketRow :=
  { ticket_id := "tkA", teacher_id := "t9", submitter_name := "n1",
    submitter_email := "e1", submitter_id := "i1", question := "q1",
    submitted_at_utc := 0, status := "SCHEDULED",
    scheduled_slot_utc := some (StoredInstant.valid 32400) }

def resRaceA : SubmitResult :=
  { ticket_id := "tkA", status := "SCHEDULED", teacher := "Ms Race",
    scheduled_local := some 32400 }

def rowRaceB : TicketRow :=
  { ticket_id := "tkB", teacher_id := "t9", submitter_name := "n2",
    submitter_email := "e2", submitter_id := "i2", question := "q2",
    submitted_at_utc := 0, status := "SCHEDULED",
    scheduled_slot_utc := some (StoredInstant.valid 32400) }

def resRaceB : SubmitResult :=
  { ticket_id := "tkB", status := "SCHEDULED", teacher := "Ms Race",
    scheduled_local := some 32400 }

/-- The ticket the second, serialized submission creates: the first
Thursday 09:00 slot is taken, so it lands one week later. -/
def rowSer2 : TicketRow :=
  { ticket_id := "tkB", teacher_id := "t9", submitter_name := "n2",
    submitter_email := "e2", submitter_id := "i2", question := "q2",
    submitted_at_utc := 0, status := "SCHEDULED",
    scheduled_slot_utc := some (StoredInstant.valid 637200) }

def resSer2 : SubmitResult :=
  { ticket_id := "tkB", status := "SCHEDULED", teacher := "Ms Race",
    scheduled_local := some 637200 }

/-! ## Claims -/

/-- C1: for every teacher with at least one availability window and every
from_instant, when find_next_available_slot returns a slot rather than the
no-slot sentinel, that slot is at or after from_instant and its
teacher-local weekday and time of day equal the weekday and start_time of
one of the teacher's weekly availability windows. -/
theorem c1_found_slot_geq_and_matches_window (db : DB) (tid : String)
    (fromUtc : Int) (d : Nat) (T : Teacher) (s : Int)
    (hT : get_teacher db tid = some T)
    (_hav : _get_availability_df db tid ≠ [])
    (hwf : ∀ a ∈ _get_availability_df db tid, a.start_hh < 24 ∧ a.start_mm < 60)
    (hs : find_next_available_slot db tid fromUtc d = Except.ok (some s)) :
    fromUtc ≤ s ∧
      ∃ a ∈ _get_availability_df db tid,
        a.weekday = wallWeekday (s + T.tz_offset) ∧
        (s + T.tz_offset) % 86400 =
          (a.start_hh : Int) * 3600 + (a.start_mm : Int) * 60 := by
  obtain ⟨hmem, hge, _⟩ := find_next_some_elim hT hs
  refine ⟨hge, ?_⟩
  obtain ⟨k, hk, a, ha, hwd, hww⟩ := mem_all_candidates hmem
  obtain ⟨h24, h60⟩ := hwf a ha
  refine ⟨a, ha, ?_, ?_⟩
  · rw [hww, wallWeekday_window_start _ a h24 h60]
    exact hwd
  · rw [hww, emod_day_window_start _ a h24 h60]

/-- Witness for C1: the Thursday 09:00-17:00 teacher, searched from the
epoch, yields Thursday 09:00 local, which is at or after the request and
lies on the stored window. -/
theorem c1_witness :
    (0 : Int) ≤ 32400 ∧
      ∃ a ∈ _get_availability_df dbW1 "w1",
        a.weekday = wallWeekday (32400 + teacherW1.tz_offset) ∧
        (32400 + teacherW1.tz_offset) % 86400 =
          (a.start_hh : Int) * 3600 + (a.start_mm : Int) * 60 :=
  c1_found_slot_geq_and_matches_window dbW1 "w1" 0 14 teacherW1 32400 rfl
    (by decide) (by decide) rfl

/-- C2: the search returns the first candidate, in day-then-row order,
surviving the rejection test, and a candidate is rejected exactly when it
is strictly before the teacher-local instant derived from from_instant or
its minute-truncated teacher-local start equals the minute-truncated
teacher-local start of an existing scheduled ticket of that teacher, each
stored UTC slot being converted into the teacher's zone before the
minute-level comparison. -/
theorem c2_candidate_rejection_iff (db : DB) (tid : String) (fromUtc : Int)
    (d : Nat) (T : Teacher) (w : Int)
    (hT : get_teacher db tid = some T)
    (hav : _get_availability_df db tid ≠ []) :
    (find_next_available_slot db tid fromUtc d =
      Except.ok
        (((all_candidates T.tz_offset fromUtc (_get_availability_df db tid) d).find?
            (fun x => ! slot_rejected (scheduled_local_starts db tid T.tz_offset)
              (fromUtc + T.tz_offset) x)).map (fun x => x - T.tz_offset))) ∧
    (slot_rejected (scheduled_local_starts db tid T.tz_offset)
        (fromUtc + T.tz_offset) w = true ↔
      (w < fromUtc + T.tz_offset ∨
        ∃ t ∈ db.tickets, t.teacher_id = tid ∧
          ∃ u : Int, t.scheduled_slot_utc = some (StoredInstant.valid u) ∧
            truncMinute (u + T.tz_offset) = truncMinute w)) := by
  refine ⟨find_next_char db tid fromUtc d T hT hav, ?_⟩
  simp only [slot_rejected, Bool.or_eq_true, decide_eq_true_eq]
  rw [mem_scheduled_local_starts]

/-- Witness for C2: a teacher in a zone five hours west with a booked
Monday 09:00 local ticket and one malformed ticket; the Monday 09:00 wall
reading is rejected exactly because of the stored ticket. -/
theorem c2_witness :
    (find_next_available_slot dbW2 "w2" 394200 14 =
      Except.ok
        (((all_candidates teacherW2.tz_offset 394200
              (_get_availability_df dbW2 "w2") 14).find?
            (fun x => ! slot_rejected (scheduled_local_starts dbW2 "w2" teacherW2.tz_offset)
              (394200 + teacherW2.tz_offset) x)).map
          (fun x => x - teacherW2.tz_offset))) ∧
    (slot_rejected (scheduled_local_starts dbW2 "w2" teacherW2.tz_offset)
        (394200 + teacherW2.tz_offset) 378000 = true ↔
      ((378000 : Int) < 394200 + teacherW2.tz_offset ∨
        ∃ t ∈ dbW2.tickets, t.teacher_id = "w2" ∧
          ∃ u : Int, t.scheduled_slot_utc = some (StoredInstant.valid u) ∧
            truncMinute (u + teacherW2.tz_offset) = truncMinute 378000)) :=
  c2_candidate_rejection_iff dbW2 "w2" 394200 14 teacherW2 378000 rfl (by decide)

/-- C3: a submit_ticket call that results in a SCHEDULED ticket with slot S
makes that ticket immediately visible: any following
find_next_available_slot call for the teacher on the updated database, for
any from_instant and horizon, never returns S again. -/
theorem c3_scheduled_slot_not_returned_again (db : DB) (tid n e i q : String)
    (t0 : Int) (tk : String) (db2 : DB) (r : SubmitResult) (S fromU : Int)
    (d : Nat) (s2 : Int)
    (hsub : submit_ticket db tid n e i q t0 tk = Except.ok (db2, r))
    (hS : r.scheduled_local = some S)
    (hfind : find_next_available_slot db2 tid fromU d = Except.ok (some s2)) :
    r.status = "SCHEDULED" ∧ s2 ≠ S := by
  obtain ⟨T, _, _, _, _, hst, _⟩ := submit_ticket_ok_elim hsub
  refine ⟨?_, submit_then_find_ne hsub hS hfind⟩
  rw [hst, hS]
  rfl

/-- Witness for C3: booking Thursday 09:00 at the epoch, the immediate
re-search skips that slot and lands one week later. -/
theorem c3_witness :
    submit_ticket dbW3 "w3" "n" "e" "i" "q" 0 "tk3" =
        Except.ok (submit_phase2 dbW3 tickW3, resW3) ∧
      find_next_available_slot (submit_phase2 dbW3 tickW3) "w3" 0 14 =
        Except.ok (some 637200) ∧
      resW3.status = "SCHEDULED" ∧ (637200 : Int) ≠ 32400 :=
  ⟨rfl, rfl,
    c3_scheduled_slot_not_returned_again dbW3 "w3" "n" "e" "i" "q" 0 "tk3"
      (submit_phase2 dbW3 tickW3) resW3 32400 0 14 637200 rfl rfl rfl⟩

/-- C4: inclusive lower bound at a window's start, and skipping to the next
weekly occurrence otherwise. First part: whenever the teacher-local reading
of from_instant falls exactly on the stored window's start time on a day of
the window's weekday, and that start is not already booked, the search
returns from_instant itself. Second part: the Monday 09:00-17:00 teacher
five hours west of UTC, asked exactly at Monday 17:00 local (instant
424800), gets the following Monday 09:00 local (instant 1000800), seven
days minus eight hours later, not a time later that same Monday. -/
theorem c4_inclusive_start_and_week_skip :
    (∀ (db : DB) (tid : String) (fromUtc : Int) (d : Nat) (T : Teacher) (a : AvailRow),
      get_teacher db tid = some T →
      _get_availability_df db tid = [a] →
      a.weekday = wallWeekday (fromUtc + T.tz_offset) →
      (fromUtc + T.tz_offset) % 86400 =
        (a.start_hh : Int) * 3600 + (a.start_mm : Int) * 60 →
      (fromUtc + T.tz_offset) ∉ scheduled_local_starts db tid T.tz_offset →
      find_next_available_slot db tid fromUtc d = Except.ok (some fromUtc)) ∧
    (find_next_available_slot dbMon "tm" 424800 14 = Except.ok (some 1000800) ∧
      wallWeekday ((424800 : Int) + teacherMon.tz_offset) = 0 ∧
      ((424800 : Int) + teacherMon.tz_offset) % 86400 = 17 * 3600 ∧
      wallWeekday ((1000800 : Int) + teacherMon.tz_offset) = 0 ∧
      ((1000800 : Int) + teacherMon.tz_offset) % 86400 = 9 * 3600 ∧
      (1000800 : Int) - 424800 = 7 * 86400 - 8 * 3600) := by
  constructor
  · intro db tid fromUtc d T a hT hav hwd htod hns
    have hws : window_start_wall (fromUtc + T.tz_offset) a = fromUtc + T.tz_offset := by
      simp only [window_start_wall, dayStartWall]
      omega
    have h60 : (fromUtc + T.tz_offset) % 60 = 0 := by omega
    have h := find_next_day0_head db tid fromUtc d T a [] hT hav hwd
      (by rw [hws]) (by rw [hws, truncMinute_eq_self h60]; exact hns)
    rw [hws] at h
    simpa using h
  · exact ⟨rfl, by decide, by decide, by decide, by decide, by decide⟩

/-- Witness for C4: the same Monday teacher asked exactly at Monday 09:00
local (instant 396000) is given that very instant. -/
theorem c4_witness :
    find_next_available_slot dbMon "tm" 396000 14 = Except.ok (some 396000) :=
  c4_inclusive_start_and_week_skip.1 dbMon "tm" 396000 14 teacherMon availMon rfl rfl
    (by decide) (by decide) (by decide)

/-- C5: a teacher who exists but has zero availability windows yields the
no-slot sentinel for every from_instant, and the answer is independent of
whatever the tickets table holds. -/
theorem c5_no_windows_returns_none (db : DB) (tid : String) (fromUtc : Int)
    (d : Nat) (T : Teacher)
    (hT : get_teacher db tid = some T)
    (hav : _get_availability_df db tid = []) :
    find_next_available_slot db tid fromUtc d = Except.ok none ∧
      ∀ ts : List TicketRow,
        find_next_available_slot { db with tickets := ts } tid fromUtc d =
          Except.ok none := by
  refine ⟨find_next_empty_avail db tid fromUtc d T hT hav, ?_⟩
  intro ts
  exact find_next_empty_avail { db with tickets := ts } tid fromUtc d T hT hav

/-- Witness for C5: a window-less teacher, with and without a stray
scheduled ticket in the table. -/
theorem c5_witness :
    find_next_available_slot dbW5 "w5" 12345 14 = Except.ok none ∧
      find_next_available_slot { dbW5 with tickets := [tickW5] } "w5" 12345 14 =
        Except.ok none := by
  obtain ⟨h1, h2⟩ := c5_no_windows_returns_none dbW5 "w5" 12345 14 teacherW5 rfl rfl
  exact ⟨h1, h2 [tickW5]⟩

/-- C6 counterexample: with overlapping Thursday windows stored as
10:00-13:00 before 09:00-12:00 and a request at the epoch (a Thursday
midnight, offset zero), the search returns the 10:00 candidate (wall 36000)
although the same day carries an unrejected 09:00 candidate (wall 32400)
with the earlier start: windows are iterated in stored row order, not in
start-time ascending order as the claim states. -/
theorem c6_windows_not_sorted_counterexample :
    find_next_available_slot dbRows "t6" 0 14 = Except.ok (some 36000) ∧
    (32400 : Int) ∈ day_candidates 0 0 (_get_availability_df dbRows "t6") 0 ∧
    slot_rejected (scheduled_local_starts dbRows "t6" 0) 0 32400 = false ∧
    (32400 : Int) < 36000 :=
  ⟨rfl, by decide, rfl, by decide⟩

/-- C6 amended: the day's windows are iterated in stored row (insertion)
order, a stable deterministic order that need not be start-time ascending;
with two windows on the matching weekday, overlapping or not, the first
stored row's candidate is returned whenever it is at or after the local
now and unscheduled, whatever the second row holds, and the search
terminates without error. -/
theorem c6_row_order_first_candidate (db : DB) (tid : String) (fromUtc : Int)
    (d : Nat) (T : Teacher) (a1 a2 : AvailRow)
    (hT : get_teacher db tid = some T)
    (hav : _get_availability_df db tid = [a1, a2])
    (hwd : a1.weekday = wallWeekday (fromUtc + T.tz_offset))
    (hge : fromUtc + T.tz_offset ≤ window_start_wall (fromUtc + T.tz_offset) a1)
    (hns : truncMinute (window_start_wall (fromUtc + T.tz_offset) a1) ∉
      scheduled_local_starts db tid T.tz_offset) :
    find_next_available_slot db tid fromUtc d =
      Except.ok (some (window_start_wall (fromUtc + T.tz_offset) a1 - T.tz_offset)) :=
  find_next_day0_head db tid fromUtc d T a1 [a2] hT hav hwd hge hns

/-- Witness for the amended C6 on the overlapping-window database: the
first stored row (10:00-13:00) wins although the second row starts
earlier. -/
theorem c6_witness :
    find_next_available_slot dbRows "t6" 0 14 =
      Except.ok (some (window_start_wall (0 + teacherRows.tz_offset) availRows1 -
        teacherRows.tz_offset)) :=
  c6_row_order_first_candidate dbRows "t6" 0 14 teacherRows availRows1 availRows2
    rfl rfl (by decide) (by decide) (by decide)

/-- C7 counterexample: submit_ticket performs no question-text validation.
With the teacher present and the question the empty string (which is empty
after trimming), the call succeeds and creates a QUEUED ticket instead of
failing with a validation error as the claim requires. -/
theorem c7_empty_question_accepted_counterexample :
    submit_ticket dbQ "t7" "nm" "em" "sid" "" 0 "tk7" =
      Except.ok (submit_phase2 dbQ tickQ,
        { ticket_id := "tk7", status := "QUEUED", teacher := "Mr Q",
          scheduled_local := none }) := rfl

/-- C7 amended: submit_ticket fails with the named error "Teacher not
found" exactly when the referenced teacher does not exist; in every other
case, including a question that is empty after trimming, it creates and
stores the ticket, reporting a slot-less search as the normal QUEUED
outcome and never as an error. (The empty-question validation the claim
describes lives only in AfterHoursService.create_request, the separate
second implementation, not in submit_ticket.) -/
theorem c7_error_contract_amended (db : DB) (tid n e i q : String) (t0 : Int)
    (tk : String) (o : Option Int) :
    (get_teacher db tid = none →
      submit_ticket db tid n e i q t0 tk = Except.error "Teacher not found") ∧
    (∀ T : Teacher, get_teacher db tid = some T →
      find_next_available_slot db tid t0 14 = Except.ok o →
      submit_ticket db tid n e i q t0 tk =
        Except.ok
          (submit_phase2 db
            { ticket_id := tk, teacher_id := tid, submitter_name := n,
              submitter_email := e, submitter_id := i, question := q,
              submitted_at_utc := t0,
              status := if o.isSome then "SCHEDULED" else "QUEUED",
              scheduled_slot_utc := o.map StoredInstant.valid },
          { ticket_id := tk, status := if o.isSome then "SCHEDULED" else "QUEUED",
            teacher := T.name, scheduled_local := o })) := by
  constructor
  · intro hg
    unfold submit_ticket submit_phase1
    rw [hg]
  · intro T hg hf
    unfold submit_ticket submit_phase1
    rw [hg, hf]

/-- Witness for the amended C7: a missing teacher id errors; an existing
teacher with a whitespace-only question gets a SCHEDULED ticket. -/
theorem c7_witness :
    submit_ticket dbQ "zz" "nm" "em" "sid" "q" 0 "tkz" =
        Except.error "Teacher not found" ∧
      submit_ticket dbW1 "w1" "nm" "em" "sid" "   " 0 "tkw" =
        Except.ok
          (submit_phase2 dbW1
            { ticket_id := "tkw", teacher_id := "w1", submitter_name := "nm",
              submitter_email := "em", submitter_id := "sid", question := "   ",
              submitted_at_utc := 0, status := "SCHEDULED",
              scheduled_slot_utc := some (StoredInstant.valid 32400) },
          { ticket_id := "tkw", status := "SCHEDULED", teacher := "Ms One",
            scheduled_local := some 32400 }) :=
  ⟨(c7_error_contract_amended dbQ "zz" "nm" "em" "sid" "q" 0 "tkz" none).1 rfl,
    (c7_error_contract_amended dbW1 "w1" "nm" "em" "sid" "   " 0 "tkw"
      (some 32400)).2 teacherW1 rfl rfl⟩

/-- C8: find_next_available_slot only runs SELECT queries: as a state
transformer it leaves the database unchanged, so calling it twice with the
same arguments and no intervening booking or availability change returns
the same result both times. -/
theorem c8_find_next_slot_read_idempotent (db : DB) (tid : String)
    (fromUtc : Int) (d : Nat) :
    (find_next_available_slot_run db tid fromUtc d).1 = db ∧
    (find_next_available_slot_run
        ((find_next_available_slot_run db tid fromUtc d).1) tid fromUtc d).2 =
      (find_next_available_slot_run db tid fromUtc d).2 :=
  ⟨rfl, rfl⟩

/-- C9 counterexample: submit_ticket takes no lock between its slot search
(phase 1) and its insert (phase 2). Interleaving two submissions for the
same teacher and the same from_instant so that both searches run before
either insert leaves two stored tickets that are both SCHEDULED for the
identical slot: the search and the booking are not observed as a single
atomic step and the claimed at-most-one guarantee fails. -/
theorem c9_interleaved_double_booking_counterexample :
    submit_phase1 dbRace "t9" "n1" "e1" "i1" "q1" 0 "tkA" =
        Except.ok (rowRaceA, resRaceA) ∧
      submit_phase1 dbRace "t9" "n2" "e2" "i2" "q2" 0 "tkB" =
        Except.ok (rowRaceB, resRaceB) ∧
      rowRaceA.status = "SCHEDULED" ∧ rowRaceB.status = "SCHEDULED" ∧
      rowRaceA.scheduled_slot_utc = some (StoredInstant.valid 32400) ∧
      rowRaceB.scheduled_slot_utc = some (StoredInstant.valid 32400) ∧
      (submit_phase2 (submit_phase2 dbRace rowRaceA) rowRaceB).tickets =
        dbRace.tickets ++ [rowRaceA, rowRaceB] :=
  ⟨rfl, rfl, rfl, rfl, rfl, rfl, rfl⟩

/-- C9 amended: the code performs no per-teacher serialization; the
at-most-one guarantee holds only for serial execution. When two
submit_ticket calls for the same teacher run to completion one after the
other and both schedule, the second lands on a slot different from the
first. -/
theorem c9_serial_no_double_booking (db : DB)
    (tid n1 e1 i1 q1 n2 e2 i2 q2 : String) (t0 : Int) (tk1 tk2 : String)
    (db1 db2 : DB) (r1 r2 : SubmitResult) (S1 S2 : Int)
    (h1 : submit_ticket db tid n1 e1 i1 q1 t0 tk1 = Except.ok (db1, r1))
    (h2 : submit_ticket db1 tid n2 e2 i2 q2 t0 tk2 = Except.ok (db2, r2))
    (hS1 : r1.scheduled_local = some S1)
    (hS2 : r2.scheduled_local = some S2) :
    S2 ≠ S1 := by
  obtain ⟨T, _, hf2, _, _, _, _⟩ := submit_ticket_ok_elim h2
  rw [hS2] at hf2
  exact submit_then_find_ne h1 hS1 hf2

/-- Witness for the amended C9: serial execution of the two racing
submissions; the second one is scheduled one week later. -/
theorem c9_witness :
    submit_ticket dbRace "t9" "n1" "e1" "i1" "q1" 0 "tkA" =
        Except.ok (submit_phase2 dbRace rowRaceA, resRaceA) ∧
      submit_ticket (submit_phase2 dbRace rowRaceA) "t9" "n2" "e2" "i2" "q2" 0 "tkB" =
        Except.ok (submit_phase2 (submit_phase2 dbRace rowRaceA) rowSer2, resSer2) ∧
      (637200 : Int) ≠ 32400 :=
  ⟨rfl, rfl,
    c9_serial_no_double_booking dbRace "t9" "n1" "e1" "i1" "q1" "n2" "e2" "i2" "q2"
      0 "tkA" "tkB" (submit_phase2 dbRace rowRaceA)
      (submit_phase2 (submit_phase2 dbRace rowRaceA) rowSer2) resRaceA resSer2
      32400 637200 rfl rfl rfl rfl⟩

/-- C10: a stored scheduled_slot_utc string that does not parse is caught
and silently excluded from the duplicate-slot collision set: the search
result equals the result on the database with every malformed-slot ticket
removed, and with the teacher present the search never raises. -/
theorem c10_malformed_tickets_never_block_or_abort (db : DB) (tid : String)
    (fromUtc : Int) (d : Nat) :
    find_next_available_slot db tid fromUtc d =
      find_next_available_slot
        { db with
          tickets := db.tickets.filter
            (fun t => decide (t.scheduled_slot_utc ≠ some StoredInstant.malformed)) }
        tid fromUtc d ∧
    (∀ T : Teacher, get_teacher db tid = some T →
      ∃ o : Option Int, find_next_available_slot db tid fromUtc d = Except.ok o) := by
  constructor
  · exact find_next_congr db _ tid fromUtc d rfl rfl
      (fun off => (filterMap_ticket_filter_malformed db.tickets tid off).symm)
  · intro T hT
    exact find_next_ok_of_teacher hT

/-- Witness for C10 on the database holding a malformed ticket next to a
valid one. -/
theorem c10_witness :
    find_next_available_slot dbW2 "w2" 394200 14 =
        find_next_available_slot
          { dbW2 with
            tickets := dbW2.tickets.filter
              (fun t => decide (t.scheduled_slot_utc ≠ some StoredInstant.malformed)) }
          "w2" 394200 14 ∧
      ∃ o : Option Int,
        find_next_available_slot dbW2 "w2" 394200 14 = Except.ok o :=
  ⟨(c10_malformed_tickets_never_block_or_abort dbW2 "w2" 394200 14).1,
    (c10_malformed_tickets_never_block_or_abort dbW2 "w2" 394200 14).2 teacherW2 rfl⟩
